import Mathlib

/-!
Verification of the betaflight-blackbox-field-sync core against its design
specification.

The Python sources under src/bbsyncer are shallowly embedded here:

* bytes are `List Nat` (each element intended `< 256`);
* pure functions (CRCs, frame codec, payload decoding, path resolution)
  become Lean functions with the same branch structure;
* the stateful frame decoder becomes an explicit state record with a
  per-byte step function;
* the sync orchestrator becomes a function from an environment record
  (the remote flight controller responses, disk behaviour, and an opaque
  SHA-256 function) to an output record collecting the observable trace:
  terminal result, flash-read requests issued, bytes written, the final
  on-disk file, the manifest, and whether the erase command was sent.

SHA-256 itself is treated as an opaque function `List Nat → List Nat`
carried in the environment: the orchestrator only ever compares hashes
for equality and copies them into the manifest, so every theorem below is
proved for an arbitrary hash function.
-/

namespace BBSyncer

/-! ## CRC — src/bbsyncer/msp/crc.py -/

/-- XOR checksum used in MSP v1 frames (`_py_crc8_xor`): fold of XOR from 0. -/
def crc8_xor (data : List Nat) : Nat :=
  data.foldl (· ^^^ ·) 0

/-- One shift-and-conditionally-xor round of the DVB-S2 polynomial 0xD5,
masked to 8 bits.  The 256-entry table in the source caches eight of these
rounds per input byte; the table entry for `i` is `dvbRound^[8] i`. -/
def dvbRound (c : Nat) : Nat :=
  if c &&& 0x80 ≠ 0 then ((c <<< 1) ^^^ 0xD5) &&& 0xFF else (c <<< 1) &&& 0xFF

/-- Per-byte step of CRC8-DVB-S2: xor the byte in, then eight polynomial
rounds (`crc = _CRC8_TABLE[crc ^ b]` in `_py_crc8_dvb_s2`). -/
def dvbByte (crc b : Nat) : Nat :=
  dvbRound^[8] (crc ^^^ b)

/-- CRC8-DVB-S2 over a byte slice with a chaining `initial` value
(`_py_crc8_dvb_s2`). -/
def crc8_dvb_s2 (data : List Nat) (initial : Nat := 0) : Nat :=
  data.foldl dvbByte initial

/-- Chaining law used by the v2 decoder: a batch CRC over an appended slice
equals the CRC of the second part chained from the CRC of the first. -/
theorem crc8_dvb_s2_append (a b : List Nat) (init : Nat) :
    crc8_dvb_s2 (a ++ b) init = crc8_dvb_s2 b (crc8_dvb_s2 a init) := by
  simp [crc8_dvb_s2, List.foldl_append]

/-! ## Framing — src/bbsyncer/msp/framing.py -/

/-- Decoded MSP frame (`MSPFrame` dataclass). -/
structure MSPFrame where
  version : Nat
  direction : Nat
  code : Nat
  payload : List Nat
deriving DecidableEq

/-- Encoder for an MSP v1 frame (`encode_v1`): preamble `$M<`, length byte,
code byte, payload, XOR checksum over length ∥ code ∥ payload. -/
def encode_v1 (code : Nat) (payload : List Nat) : List Nat :=
  let size := payload.length
  [0x24, 0x4D, 0x3C] ++ [size, code] ++ payload ++ [crc8_xor ([size, code] ++ payload)]

/-- Encoder for an MSP v2 frame (`encode_v2`): preamble `$X<`, flag 0,
16-bit little-endian code and length, payload, DVB-S2 CRC over
header ∥ payload. -/
def encode_v2 (code : Nat) (payload : List Nat) : List Nat :=
  let size := payload.length
  let headerForCrc : List Nat :=
    [0, code &&& 0xFF, (code >>> 8) &&& 0xFF, size &&& 0xFF, (size >>> 8) &&& 0xFF]
  [0x24, 0x58, 0x3C] ++ headerForCrc ++ payload ++ [crc8_dvb_s2 (headerForCrc ++ payload)]

/-- Rewrites the direction byte (index 2) of an encoded frame to `>` (0x3E),
turning a to-FC request into the from-FC shape the decoder emits. -/
def rewriteDirection (frame : List Nat) : List Nat :=
  frame.set 2 0x3E

/-- Decoder phases, one per `_IDLE .. _V2_CHECKSUM` constant. -/
inductive DecPhase where
  | idle | protoV1M | protoDirection
  | v1Len | v1Code | v1Payload | v1Checksum
  | v2Flag | v2CodeLo | v2CodeHi | v2LenLo | v2LenHi | v2Payload | v2Checksum
deriving DecidableEq

/-- Decoder state (`FrameDecoder` object fields).  The Python code
preallocates `bytearray(size)` and fills it through `_payload_idx`; since
every cell is written before the frame is emitted, the buffer is modelled as
the accumulated list of written bytes, with `_payload_idx` equal to its
length. -/
structure FrameDecoder where
  frames : List MSPFrame
  phase : DecPhase
  version : Nat
  direction : Nat
  code : Nat
  size : Nat
  payload : List Nat
  checksum : Nat
  v2header : List Nat
deriving DecidableEq

/-- State after `_reset`: phase `IDLE`, all scratch fields cleared, emitted
frames kept. -/
def decReset (d : FrameDecoder) : FrameDecoder :=
  { d with phase := .idle, version := 0, direction := 0, code := 0, size := 0,
           payload := [], checksum := 0, v2header := [] }

/-- A freshly constructed decoder. -/
def freshDecoder : FrameDecoder :=
  { frames := [], phase := .idle, version := 0, direction := 0, code := 0, size := 0,
    payload := [], checksum := 0, v2header := [] }

/-- One step of the decoder state machine (`FrameDecoder._process`). -/
def decProcess (d : FrameDecoder) (b : Nat) : FrameDecoder :=
  match d.phase with
  | .idle =>
      if b = 0x24 then { d with phase := .protoV1M } else d
  | .protoV1M =>
      if b = 0x4D then { d with version := 1, phase := .protoDirection }
      else if b = 0x58 then { d with version := 2, phase := .protoDirection }
      else decReset d
  | .protoDirection =>
      if b = 0x3C ∨ b = 0x3E ∨ b = 0x21 then
        { d with direction := b,
                 phase := if d.version = 1 then .v1Len else .v2Flag }
      else decReset d
  | .v1Len =>
      { d with size := b, checksum := b, phase := .v1Code }
  | .v1Code =>
      if d.size = 0 then
        { d with code := b, checksum := d.checksum ^^^ b, payload := [], phase := .v1Checksum }
      else
        { d with code := b, checksum := d.checksum ^^^ b, payload := [], phase := .v1Payload }
  | .v1Payload =>
      let p := d.payload ++ [b]
      { d with payload := p, checksum := d.checksum ^^^ b,
               phase := if p.length = d.size then .v1Checksum else .v1Payload }
  | .v1Checksum =>
      decReset (if b = d.checksum then
        { d with frames := d.frames ++ [⟨1, d.direction, d.code, d.payload⟩] }
      else d)
  | .v2Flag =>
      { d with v2header := [b], phase := .v2CodeLo }
  | .v2CodeLo =>
      { d with code := b, v2header := d.v2header ++ [b], phase := .v2CodeHi }
  | .v2CodeHi =>
      { d with code := d.code ||| (b <<< 8), v2header := d.v2header ++ [b], phase := .v2LenLo }
  | .v2LenLo =>
      { d with size := b, v2header := d.v2header ++ [b], phase := .v2LenHi }
  | .v2LenHi =>
      let sz := d.size ||| (b <<< 8)
      if sz = 0 then
        { d with size := sz, v2header := d.v2header ++ [b], payload := [], phase := .v2Checksum }
      else
        { d with size := sz, v2header := d.v2header ++ [b], payload := [], phase := .v2Payload }
  | .v2Payload =>
      let p := d.payload ++ [b]
      { d with payload := p,
               phase := if p.length = d.size then .v2Checksum else .v2Payload }
  | .v2Checksum =>
      decReset (if b = crc8_dvb_s2 d.payload (crc8_dvb_s2 d.v2header) then
        { d with frames := d.frames ++ [⟨2, d.direction, d.code, d.payload⟩] }
      else d)

/-- Feeding a byte slice (`FrameDecoder.feed`, pure-Python path): fold the
per-byte step over the input. -/
def decFeed (d : FrameDecoder) (data : List Nat) : FrameDecoder :=
  data.foldl decProcess d

/-! ### Decoder roundtrip lemmas -/

/-- Recombination of the two little-endian bytes the encoders emit: the
decoder's `code |= b << 8` rebuilds the original 16-bit value. -/
theorem lohi_recombine (c : Nat) (h : c < 65536) :
    (c &&& 0xFF) ||| (((c >>> 8) &&& 0xFF) <<< 8) = c := by
  have e1 : c &&& 0xFF = c % 256 := Nat.and_pow_two_sub_one_eq_mod c 8
  have e2 : (c >>> 8) &&& 0xFF = c / 256 := by
    have e := Nat.and_pow_two_sub_one_eq_mod (c >>> 8) 8
    rw [Nat.shiftRight_eq_div_pow] at e ⊢
    rw [e]
    have h8 : (2 : Nat) ^ 8 = 256 := by norm_num
    rw [h8]
    exact Nat.mod_eq_of_lt (by omega)
  have e3 : (c / 256) <<< 8 = 2 ^ 8 * (c / 256) := by
    rw [Nat.shiftLeft_eq, Nat.mul_comm]
  have e4 : c % 256 < 2 ^ 8 := by
    have h8 : (2 : Nat) ^ 8 = 256 := by norm_num
    rw [h8]; omega
  rw [e1, e2, e3, Nat.lor_comm, ← Nat.mul_add_lt_is_or e4]
  have h8 : (2 : Nat) ^ 8 = 256 := by norm_num
  rw [h8]; omega

/-- Running a v1 payload through the decoder: from phase `v1Payload` with
`acc` bytes already accumulated, feeding the remaining nonempty `rest`
lands in `v1Checksum` with the full payload accumulated and the running
XOR folded over the fed bytes. -/
theorem decFeed_v1_payload (rest : List Nat) :
    ∀ (fr : List MSPFrame) (ver dir cd sz : Nat) (acc : List Nat) (ck : Nat)
      (v2h : List Nat), sz = acc.length + rest.length → rest ≠ [] →
      decFeed ⟨fr, .v1Payload, ver, dir, cd, sz, acc, ck, v2h⟩ rest =
        ⟨fr, .v1Checksum, ver, dir, cd, sz, acc ++ rest,
          rest.foldl (· ^^^ ·) ck, v2h⟩ := by
  induction rest with
  | nil => intro _ _ _ _ _ _ _ _ _ h; exact absurd rfl h
  | cons b rest ih =>
    intro fr ver dir cd sz acc ck v2h hsz _
    subst hsz
    cases rest with
    | nil =>
      have hlen : acc.length + 1 = acc.length + (0 + 1) := by omega
      simp [decFeed, decProcess, hlen]
    | cons r1 rest2 =>
      have hlen : ¬ (acc.length + 1 = acc.length + (rest2.length + 1 + 1)) := by omega
      have hstep : decFeed
            ⟨fr, .v1Payload, ver, dir, cd, acc.length + (b :: r1 :: rest2).length, acc, ck, v2h⟩
            (b :: r1 :: rest2)
          = decFeed
            ⟨fr, .v1Payload, ver, dir, cd, acc.length + (b :: r1 :: rest2).length,
              acc ++ [b], ck ^^^ b, v2h⟩ (r1 :: rest2) := by
        simp [decFeed, decProcess, hlen]
      rw [hstep]
      have hsz2 : acc.length + (b :: r1 :: rest2).length
          = (acc ++ [b]).length + (r1 :: rest2).length := by
        simp; omega
      rw [hsz2, ih fr ver dir cd ((acc ++ [b]).length + (r1 :: rest2).length)
        (acc ++ [b]) (ck ^^^ b) v2h rfl (by simp)]
      simp

/-- Running a v2 payload through the decoder: identical shape to the v1 run
except that the checksum field is untouched (the v2 CRC is computed in one
batch at the checksum byte). -/
theorem decFeed_v2_payload (rest : List Nat) :
    ∀ (fr : List MSPFrame) (ver dir cd sz : Nat) (acc : List Nat) (ck : Nat)
      (v2h : List Nat), sz = acc.length + rest.length → rest ≠ [] →
      decFeed ⟨fr, .v2Payload, ver, dir, cd, sz, acc, ck, v2h⟩ rest =
        ⟨fr, .v2Checksum, ver, dir, cd, sz, acc ++ rest, ck, v2h⟩ := by
  induction rest with
  | nil => intro _ _ _ _ _ _ _ _ _ h; exact absurd rfl h
  | cons b rest ih =>
    intro fr ver dir cd sz acc ck v2h hsz _
    subst hsz
    cases rest with
    | nil =>
      have hlen : acc.length + 1 = acc.length + (0 + 1) := by omega
      simp [decFeed, decProcess, hlen]
    | cons r1 rest2 =>
      have hlen : ¬ (acc.length + 1 = acc.length + (rest2.length + 1 + 1)) := by omega
      have hstep : decFeed
            ⟨fr, .v2Payload, ver, dir, cd, acc.length + (b :: r1 :: rest2).length, acc, ck, v2h⟩
            (b :: r1 :: rest2)
          = decFeed
            ⟨fr, .v2Payload, ver, dir, cd, acc.length + (b :: r1 :: rest2).length,
              acc ++ [b], ck, v2h⟩ (r1 :: rest2) := by
        simp [decFeed, decProcess, hlen]
      rw [hstep]
      have hsz2 : acc.length + (b :: r1 :: rest2).length
          = (acc ++ [b]).length + (r1 :: rest2).length := by
        simp; omega
      rw [hsz2, ih fr ver dir cd ((acc ++ [b]).length + (r1 :: rest2).length)
        (acc ++ [b]) ck v2h rfl (by simp)]
      simp

/-- Feeding a direction-rewritten v1 frame into any decoder that is
currently in phase `IDLE` appends exactly the encoded frame and ends in the
reset state. -/
theorem decFeed_encode_v1 (d : FrameDecoder) (hphase : d.phase = .idle)
    (code : Nat) (payload : List Nat) :
    decFeed d (rewriteDirection (encode_v1 code payload)) =
      { freshDecoder with frames := d.frames ++ [⟨1, 0x3E, code, payload⟩] } := by
  obtain ⟨fr, ph, ver, dir, cd, sz, pl, ck, v2h⟩ := d
  simp only [FrameDecoder.phase] at hphase
  subst hphase
  have henc : rewriteDirection (encode_v1 code payload) =
      0x24 :: 0x4D :: 0x3E :: payload.length :: code ::
        (payload ++ [crc8_xor (payload.length :: code :: payload)]) := rfl
  rw [henc]
  cases payload with
  | nil =>
    simp [decFeed, decProcess, decReset, freshDecoder, crc8_xor]
  | cons p ps =>
    have hsplit : decFeed ⟨fr, .idle, ver, dir, cd, sz, pl, ck, v2h⟩
        (0x24 :: 0x4D :: 0x3E :: (p :: ps).length :: code ::
          ((p :: ps) ++ [crc8_xor ((p :: ps).length :: code :: (p :: ps))]))
        = decFeed ⟨fr, .v1Payload, 1, 0x3E, code, (p :: ps).length, [],
            (p :: ps).length ^^^ code, v2h⟩
            ((p :: ps) ++ [crc8_xor ((p :: ps).length :: code :: (p :: ps))]) := by
      simp [decFeed, decProcess]
    rw [hsplit, decFeed, List.foldl_append, ← decFeed, ← decFeed,
      decFeed_v1_payload (p :: ps) fr 1 0x3E code (p :: ps).length []
        ((p :: ps).length ^^^ code) v2h (by simp) (by simp)]
    have hcond : crc8_xor ((ps.length + 1) :: code :: p :: ps)
        = List.foldl (· ^^^ ·) ((ps.length + 1) ^^^ code ^^^ p) ps := by
      simp [crc8_xor]
    simp [decFeed, decProcess, decReset, freshDecoder, hcond]

/-- Feeding a direction-rewritten v2 frame into any decoder that is
currently in phase `IDLE` appends exactly the encoded frame and ends in the
reset state.  The 16-bit code and payload length are recombined from their
little-endian bytes by `lohi_recombine`. -/
theorem decFeed_encode_v2 (d : FrameDecoder) (hphase : d.phase = .idle)
    (code : Nat) (payload : List Nat)
    (hcode : code < 65536) (hlen : payload.length < 65536) :
    decFeed d (rewriteDirection (encode_v2 code payload)) =
      { freshDecoder with frames := d.frames ++ [⟨2, 0x3E, code, payload⟩] } := by
  obtain ⟨fr, ph, ver, dir, cd, sz, pl, ck, v2h⟩ := d
  simp only [FrameDecoder.phase] at hphase
  subst hphase
  have hc := lohi_recombine code hcode
  have henc : rewriteDirection (encode_v2 code payload) =
      0x24 :: 0x58 :: 0x3E :: 0 :: (code &&& 0xFF) :: ((code >>> 8) &&& 0xFF) ::
        (payload.length &&& 0xFF) :: ((payload.length >>> 8) &&& 0xFF) ::
        (payload ++ [crc8_dvb_s2
          ([0, code &&& 0xFF, (code >>> 8) &&& 0xFF,
            payload.length &&& 0xFF, (payload.length >>> 8) &&& 0xFF] ++ payload)]) := rfl
  rw [henc]
  cases payload with
  | nil =>
    have hn := lohi_recombine 0 (by norm_num)
    simp [decFeed, decProcess, decReset, freshDecoder, hc, hn, crc8_dvb_s2]
  | cons p ps =>
    have hn : ((ps.length + 1) &&& 0xFF) ||| ((((ps.length + 1) >>> 8) &&& 0xFF) <<< 8)
        = ps.length + 1 := lohi_recombine (ps.length + 1) (by simpa using hlen)
    have hsplit : decFeed ⟨fr, .idle, ver, dir, cd, sz, pl, ck, v2h⟩
        (0x24 :: 0x58 :: 0x3E :: 0 :: (code &&& 0xFF) :: ((code >>> 8) &&& 0xFF) ::
          ((p :: ps).length &&& 0xFF) :: (((p :: ps).length >>> 8) &&& 0xFF) ::
          ((p :: ps) ++ [crc8_dvb_s2
            ([0, code &&& 0xFF, (code >>> 8) &&& 0xFF,
              (p :: ps).length &&& 0xFF, ((p :: ps).length >>> 8) &&& 0xFF] ++ (p :: ps))]))
        = decFeed ⟨fr, .v2Payload, 2, 0x3E, code, ps.length + 1, [], ck,
            [0, code &&& 0xFF, (code >>> 8) &&& 0xFF,
              (ps.length + 1) &&& 0xFF, ((ps.length + 1) >>> 8) &&& 0xFF]⟩
            ((p :: ps) ++ [crc8_dvb_s2
              ([0, code &&& 0xFF, (code >>> 8) &&& 0xFF,
                (p :: ps).length &&& 0xFF, ((p :: ps).length >>> 8) &&& 0xFF] ++ (p :: ps))]) := by
      simp [decFeed, decProcess, hc, hn]
    rw [hsplit, decFeed, List.foldl_append, ← decFeed, ← decFeed,
      decFeed_v2_payload (p :: ps) fr 2 0x3E code (ps.length + 1) [] ck
        [0, code &&& 0xFF, (code >>> 8) &&& 0xFF,
          (ps.length + 1) &&& 0xFF, ((ps.length + 1) >>> 8) &&& 0xFF]
        (by simp) (by simp)]
    have hcond : crc8_dvb_s2
        (0 :: (code &&& 0xFF) :: ((code >>> 8) &&& 0xFF) ::
          ((ps.length + 1) &&& 0xFF) :: (((ps.length + 1) >>> 8) &&& 0xFF) :: p :: ps)
        = crc8_dvb_s2 (p :: ps)
            (crc8_dvb_s2 [0, code &&& 0xFF, (code >>> 8) &&& 0xFF,
              (ps.length + 1) &&& 0xFF, ((ps.length + 1) >>> 8) &&& 0xFF]) := by
      have h := crc8_dvb_s2_append
        [0, code &&& 0xFF, (code >>> 8) &&& 0xFF,
          (ps.length + 1) &&& 0xFF, ((ps.length + 1) >>> 8) &&& 0xFF] (p :: ps) 0
      simpa using h
    simp [decFeed, decProcess, decReset, freshDecoder, hcond]

/-! ### Claims C4 and C5 -/

/-- Claim C4: feeding a direction-rewritten `encode_v1 (code, payload)` frame
into a fresh decoder appends exactly one frame with version 1 and the same
code and payload, and likewise `encode_v2` yields exactly one matching
version-2 frame.  The bounds mirror the byte-width constraints of the
encoders (v1: one length byte and one code byte; v2: 16-bit length and
code). -/
theorem claim_C4 :
    (∀ (code : Nat) (payload : List Nat), code < 256 → payload.length ≤ 255 →
      (∀ b ∈ payload, b < 256) →
      (decFeed freshDecoder (rewriteDirection (encode_v1 code payload))).frames
        = [⟨1, 0x3E, code, payload⟩])
    ∧ (∀ (code : Nat) (payload : List Nat), code < 65536 → payload.length ≤ 65535 →
      (∀ b ∈ payload, b < 256) →
      (decFeed freshDecoder (rewriteDirection (encode_v2 code payload))).frames
        = [⟨2, 0x3E, code, payload⟩]) := by
  constructor
  · intro code payload _ _ _
    rw [decFeed_encode_v1 freshDecoder rfl code payload]
    simp [freshDecoder]
  · intro code payload hc hl _
    rw [decFeed_encode_v2 freshDecoder rfl code payload hc (by omega)]
    simp [freshDecoder]

/-- Concrete instantiation of claim C4 at code 70 with a 3-byte payload (v1)
and at code 300 with a 1-byte payload (v2). -/
theorem claim_C4_witness :
    (decFeed freshDecoder (rewriteDirection (encode_v1 70 [1, 2, 3]))).frames
        = [⟨1, 0x3E, 70, [1, 2, 3]⟩]
    ∧ (decFeed freshDecoder (rewriteDirection (encode_v2 300 [7]))).frames
        = [⟨2, 0x3E, 300, [7]⟩] :=
  ⟨claim_C4.1 70 [1, 2, 3] (by decide) (by decide) (by decide),
   claim_C4.2 300 [7] (by decide) (by decide) (by decide)⟩

/-- Bytewise contiguous-substring test, mirroring the Python `in` operator
on byte strings. -/
def containsSeq (pat : List Nat) : List Nat → Bool
  | [] => pat.isEmpty
  | b :: rest => pat.isPrefixOf (b :: rest) || containsSeq pat rest

/-- Claim C5 is false as stated: the single garbage byte 0x24 contains
neither synchronization pattern, yet feeding it before a valid
direction-rewritten v1 frame makes the decoder consume the frame opening
inside its sync prefix and emit nothing. -/
theorem claim_C5_counterexample :
    containsSeq [0x24, 0x4D, 0x3C] [0x24] = false
    ∧ containsSeq [0x24, 0x58, 0x3C] [0x24] = false
    ∧ (decFeed freshDecoder ([0x24] ++ rewriteDirection (encode_v1 0 []))).frames = []
    ∧ (decFeed freshDecoder ([0x24] ++ rewriteDirection (encode_v1 0 []))).frames
        ≠ [⟨1, 0x3E, 0, []⟩] := by
  decide

/-- Claim C5 (amended): prepending garbage before a valid encoded frame
still yields exactly the embedded frame, provided feeding the garbage alone
leaves a fresh decoder with no emitted frames and back in the IDLE phase
(in particular the garbage must not end in a partial sync prefix such as a
lone 0x24). -/
theorem claim_C5_amended (garbage : List Nat)
    (hidle : (decFeed freshDecoder garbage).phase = .idle)
    (hnone : (decFeed freshDecoder garbage).frames = []) :
    (∀ (code : Nat) (payload : List Nat), code < 256 → payload.length ≤ 255 →
      (∀ b ∈ payload, b < 256) →
      (decFeed freshDecoder (garbage ++ rewriteDirection (encode_v1 code payload))).frames
        = [⟨1, 0x3E, code, payload⟩])
    ∧ (∀ (code : Nat) (payload : List Nat), code < 65536 → payload.length ≤ 65535 →
      (∀ b ∈ payload, b < 256) →
      (decFeed freshDecoder (garbage ++ rewriteDirection (encode_v2 code payload))).frames
        = [⟨2, 0x3E, code, payload⟩]) := by
  constructor
  · intro code payload _ _ _
    rw [decFeed, List.foldl_append, ← decFeed, ← decFeed,
      decFeed_encode_v1 _ hidle code payload]
    simp [hnone]
  · intro code payload hc hl _
    rw [decFeed, List.foldl_append, ← decFeed, ← decFeed,
      decFeed_encode_v2 _ hidle code payload hc (by omega)]
    simp [hnone]

/-- Concrete instantiation of the amended claim C5: garbage [0, 255, 1]
followed by a v1 frame for code 5 and a v2 frame for code 300. -/
theorem claim_C5_amended_witness :
    (decFeed freshDecoder ([0, 255, 1] ++ rewriteDirection (encode_v1 5 [171]))).frames
        = [⟨1, 0x3E, 5, [171]⟩]
    ∧ (decFeed freshDecoder ([0, 255, 1] ++ rewriteDirection (encode_v2 300 [7]))).frames
        = [⟨2, 0x3E, 300, [7]⟩] :=
  ⟨(claim_C5_amended [0, 255, 1] (by decide) (by decide)).1 5 [171]
      (by decide) (by decide) (by decide),
   (claim_C5_amended [0, 255, 1] (by decide) (by decide)).2 300 [7]
      (by decide) (by decide) (by decide)⟩

/-! ## MSP client payload decoding — src/bbsyncer/msp/client.py -/

/-- Decoded flash summary (`get_dataflash_summary` result dict). -/
structure FlashSummary where
  flags : Nat
  sectors : Nat
  total_size : Nat
  used_size : Nat
  supported : Bool
  ready : Bool
deriving DecidableEq

/-- Payload decode of `MSPClient.get_dataflash_summary`: a length check
(at least 13 bytes) followed by a little-endian `<BIII` unpack; `supported`
and `ready` come from bits 0 and 1 of the flags byte.  No relation between
`used_size` and `total_size` is checked. -/
def get_dataflash_summary_decode (p : List Nat) : Except Unit FlashSummary :=
  if p.length < 13 then .error ()
  else
    let flags := p.getD 0 0
    let sectors := p.getD 1 0 + p.getD 2 0 * 256 + p.getD 3 0 * 65536 + p.getD 4 0 * 16777216
    let total := p.getD 5 0 + p.getD 6 0 * 256 + p.getD 7 0 * 65536 + p.getD 8 0 * 16777216
    let used := p.getD 9 0 + p.getD 10 0 * 256 + p.getD 11 0 * 65536 + p.getD 12 0 * 16777216
    .ok { flags := flags, sectors := sectors, total_size := total, used_size := used,
          supported := (flags &&& 0x01) != 0, ready := (flags &&& 0x02) != 0 }

/-- Little-endian response payload for the flash summary: flags byte then
sectors, total and used as 32-bit little-endian words (the `<BIII` layout). -/
def summaryPayload (flags sectors total used : Nat) : List Nat :=
  [flags,
   sectors % 256, sectors / 256 % 256, sectors / 65536 % 256, sectors / 16777216 % 256,
   total % 256, total / 256 % 256, total / 65536 % 256, total / 16777216 % 256,
   used % 256, used / 256 % 256, used / 65536 % 256, used / 16777216 % 256]

/-- Response decode shared by `read_flash_chunk` and, per the spec table,
by `receive_flash_read_response`: little-endian address (4 bytes), data
size (2 bytes), compression type (1 byte), then the data slice.  A payload
shorter than 7 bytes is an MSP error; compression type 1 routes the data
through the Huffman decoder, which is passed in as a function because the
huffman module is not part of the sources under verification. -/
def decodeFlashRead (huff : List Nat → Nat → Except Unit (List Nat)) (p : List Nat) :
    Except Unit (Nat × List Nat) :=
  if p.length < 7 then .error ()
  else
    let chunkAddr := p.getD 0 0 + p.getD 1 0 * 256 + p.getD 2 0 * 65536 + p.getD 3 0 * 16777216
    let dataSize := p.getD 4 0 + p.getD 5 0 * 256
    let compressionType := p.getD 6 0
    let rawData := (p.drop 7).take dataSize
    if compressionType = 1 then
      if rawData.length < 2 then .error ()
      else
        let charCount := rawData.getD 0 0 + rawData.getD 1 0 * 256
        match huff (rawData.drop 2) charCount with
        | .error e => .error e
        | .ok data => .ok (chunkAddr, data)
    else .ok (chunkAddr, rawData)

/-! ## Sync orchestrator — src/bbsyncer/sync/orchestrator.py

The orchestrator is embedded as a function of an environment describing
what the flight controller and the filesystem do.  Concretely:

* FC detection and the flash summary request are environment outcomes
  (each either an `MSPError` or a decoded value), matching the fact that
  `detect_fc` and `get_dataflash_summary` are request/response helpers
  whose results the orchestrator consumes whole;
* each `receive_flash_read_response` call consumes one entry of
  `readOutcomes`: either an `MSPError` (timeout or short payload) or a raw
  response payload that is decoded by `decodeFlashRead`.  Modelled from the
  spec: `send_flash_read_request` and `receive_flash_read_response` are
  absent from `src/bbsyncer/msp/client.py` (only the orchestrator and the
  tests reference them); following the spec table in section 4.4, a send
  issues the `(address, size, compression)` request and the receive decodes
  a code-72 response payload exactly as `read_flash_chunk` does.  Sent
  requests are recorded as `(address, size)` pairs;
* the disk is faithful up to the environment `corrupt` map: the writer
  streams `written` and the re-read performed by `verify_against_file`
  sees `corrupt written`; SHA-256 is the opaque `hash` function;
* erase polling consumes the `erasePolls` list (one entry per 2-second
  poll until the deadline), succeeding as soon as a poll reports an empty
  and ready flash.

Status publication and LED updates are omitted: no claim mentions them.
The free-space check `free_mb < used_size / 2^20 + min_free_space_mb`
(floats in Python) is embedded exactly over naturals by multiplying both
sides by 2^20: `freeBytes < used_size + min_free_space_mb * 2^20`. -/

/-- Terminal results of `SyncOrchestrator.run` (`SyncResult`). -/
inductive SyncResult where
  | SUCCESS | ALREADY_EMPTY | ERROR | DRY_RUN
deriving DecidableEq

/-- FC identity captured by detection (`FCInfo` dataclass). -/
structure FCInfo where
  api_major : Nat
  api_minor : Nat
  variant : List Nat
  uid : String
  blackbox_device : Nat
deriving DecidableEq

/-- Detection failures (`FCSDCardBlackbox`, `FCNotBetaflight`,
`FCDetectionError`); each maps to the same ERROR exit. -/
inductive DetectErr where
  | sdcard | notBetaflight | detectionError
deriving DecidableEq

/-- One outcome of a `receive_flash_read_response` call: an MSP-level error
or a raw code-72 response payload. -/
inductive ReadOutcome where
  | mspError
  | frame (payload : List Nat)

/-- Manifest contents (`write_manifest` JSON fields that later claims
inspect). -/
structure Manifest where
  fc : FCInfo
  sha256 : List Nat
  bytes : Nat
  erase_attempted : Bool
  erase_completed : Bool
deriving DecidableEq

/-- Orchestrator configuration slice (`Config` fields the sync path
reads). -/
structure OrchConfig where
  flash_chunk_size : Nat := 16384
  min_free_space_mb : Nat := 200
  erase_after_sync : Bool := true
  flash_read_compression : Bool := false

/-- Environment of one `SyncOrchestrator.run` execution. -/
structure Env where
  detect : Except DetectErr FCInfo
  summary : Except Unit FlashSummary
  freeBytes : Nat
  readOutcomes : List ReadOutcome
  erasePolls : List (Except Unit FlashSummary)
  corrupt : List Nat → List Nat
  hash : List Nat → List Nat
  huff : List Nat → Nat → Except Unit (List Nat)

/-- Result of the streamed read loop. -/
structure LoopOut where
  written : List Nat
  requests : List (Nat × Nat)
  aborted : Bool
deriving DecidableEq

/-- Observable trace of one run. -/
structure RunOut where
  result : SyncResult
  requests : List (Nat × Nat) := []
  written : List Nat := []
  writerOpened : Bool := false
  file : Option (List Nat) := none
  sizeOk : Option Bool := none
  shaOk : Option Bool := none
  manifest : Option Manifest := none
  eraseCalled : Bool := false
deriving DecidableEq

/-- Outcome of one receive call: either the MSP error raised by the client
or the decoded `(chunk_addr, data)` pair. -/
def recvFlashRead (huff : List Nat → Nat → Except Unit (List Nat)) :
    ReadOutcome → Except Unit (Nat × List Nat)
  | .mspError => .error ()
  | .frame p => decodeFlashRead huff p

/-- Step 6, the streamed flash read with one-deep pipelining.  Each loop
iteration consumes one receive outcome; when the environment list runs out
the receive call times out on every subsequent iteration, so the counter
climbs to 5 with a re-send per intermediate attempt and the loop aborts,
exactly as with explicit `mspError` entries. -/
def readLoop (huff : List Nat → Nat → Except Unit (List Nat)) (chunk used : Nat) :
    Nat → Nat → List Nat → List ReadOutcome → LoopOut
  | address, consec, written, [] =>
      if address < used then
        { written := written,
          requests := List.replicate (4 - consec) (address, min chunk (used - address)),
          aborted := true }
      else { written := written, requests := [], aborted := false }
  | address, consec, written, o :: rest =>
      if address < used then
        match recvFlashRead huff o with
        | .error _ =>
            if consec + 1 ≥ 5 then { written := written, requests := [], aborted := true }
            else
              let r := readLoop huff chunk used address (consec + 1) written rest
              { r with requests := (address, min chunk (used - address)) :: r.requests }
        | .ok (chunkAddr, data) =>
            if chunkAddr ≠ address then
              if consec + 1 ≥ 5 then { written := written, requests := [], aborted := true }
              else
                let r := readLoop huff chunk used address (consec + 1) written rest
                { r with requests := (address, min chunk (used - address)) :: r.requests }
            else if data = [] then { written := written, requests := [], aborted := false }
            else
              let nextAddress := address + data.length
              let r := readLoop huff chunk used nextAddress 0 (written ++ data) rest
              if nextAddress < used then
                { r with requests := (nextAddress, min chunk (used - nextAddress)) :: r.requests }
              else r
      else { written := written, requests := [], aborted := false }

/-- Step 9 polling inside `_wait_for_erase`: the poll sequence succeeds as
soon as one summary reports `used_size == 0` and `ready`; poll errors are
skipped; an exhausted list is the deadline timeout. -/
def erasePollSucceeds (polls : List (Except Unit FlashSummary)) : Bool :=
  polls.any fun p =>
    match p with
    | .ok s => s.used_size == 0 && s.ready
    | .error _ => false

/-- Steps 9 and 10 (`_wait_for_erase` plus the manifest update): the erase
command has been sent, the polls decide the outcome, the manifest is
rewritten with `erase_attempted := true`. -/
def step9Erase (env : Env) (fcInfo : FCInfo) (s : FlashSummary)
    (firstReq : Nat × Nat) (lo : LoopOut) (fileSha : List Nat) : RunOut :=
  let ok := erasePollSucceeds env.erasePolls
  let m1 : Manifest := { fc := fcInfo, sha256 := fileSha, bytes := s.used_size,
                         erase_attempted := true, erase_completed := ok }
  if ok then
    { result := .SUCCESS, requests := firstReq :: lo.requests, written := lo.written,
      writerOpened := true, file := some lo.written, sizeOk := some true, shaOk := some true,
      manifest := some m1, eraseCalled := true }
  else
    { result := .ERROR, requests := firstReq :: lo.requests, written := lo.written,
      writerOpened := true, file := some lo.written, sizeOk := some true, shaOk := some true,
      manifest := some m1, eraseCalled := true }

/-- Step 8 and the erase decision: write the manifest, then return early on
dry-run or `erase_after_sync = false`, otherwise proceed to the erase. -/
def step8Finish (cfg : OrchConfig) (dryRun : Bool) (env : Env) (fcInfo : FCInfo)
    (s : FlashSummary) (firstReq : Nat × Nat) (lo : LoopOut) (fileSha : List Nat) : RunOut :=
  let m0 : Manifest := { fc := fcInfo, sha256 := fileSha, bytes := s.used_size,
                         erase_attempted := false, erase_completed := false }
  if dryRun then
    { result := .DRY_RUN, requests := firstReq :: lo.requests, written := lo.written,
      writerOpened := true, file := some lo.written, sizeOk := some true, shaOk := some true,
      manifest := some m0 }
  else if cfg.erase_after_sync = false then
    { result := .SUCCESS, requests := firstReq :: lo.requests, written := lo.written,
      writerOpened := true, file := some lo.written, sizeOk := some true, shaOk := some true,
      manifest := some m0 }
  else step9Erase env fcInfo s firstReq lo fileSha

/-- Step 7, integrity verification: the size check against `used_size`,
then the double SHA-256 comparison of `verify_against_file`. -/
def step7Verify (cfg : OrchConfig) (dryRun : Bool) (env : Env) (fcInfo : FCInfo)
    (s : FlashSummary) (firstReq : Nat × Nat) (lo : LoopOut) : RunOut :=
  if lo.written.length ≠ s.used_size then
    { result := .ERROR, requests := firstReq :: lo.requests, written := lo.written,
      writerOpened := true, file := some lo.written, sizeOk := some false }
  else
    let fileSha := env.hash (env.corrupt lo.written)
    if fileSha ≠ env.hash lo.written then
      { result := .ERROR, requests := firstReq :: lo.requests, written := lo.written,
        writerOpened := true, file := some lo.written, sizeOk := some true, shaOk := some false }
    else step8Finish cfg dryRun env fcInfo s firstReq lo fileSha

/-- Step 6, the streamed read: prime the pipeline with the first request,
run the loop; an aborted loop deletes the partial file and errors,
otherwise the writer is closed and verification follows. -/
def step6Read (cfg : OrchConfig) (dryRun : Bool) (env : Env) (fcInfo : FCInfo)
    (s : FlashSummary) : RunOut :=
  let firstReq : Nat × Nat := (0, min cfg.flash_chunk_size s.used_size)
  let lo := readLoop env.huff cfg.flash_chunk_size s.used_size 0 0 [] env.readOutcomes
  if lo.aborted then
    { result := .ERROR, requests := firstReq :: lo.requests, written := lo.written,
      writerOpened := true, file := none }
  else step7Verify cfg dryRun env fcInfo s firstReq lo

/-- The full `SyncOrchestrator._run` pipeline over an environment, staged
by the step comments of the source; `run` adds only a catch-all handler
that is unreachable in this total model. -/
def runModel (cfg : OrchConfig) (dryRun : Bool) (env : Env) : RunOut :=
  match env.detect with
  | .error _ => { result := .ERROR }
  | .ok fcInfo =>
    match env.summary with
    | .error _ => { result := .ERROR }
    | .ok s =>
      if s.supported = false then { result := .ERROR }
      else if s.ready = false then { result := .ERROR }
      else if s.used_size = 0 then { result := .ALREADY_EMPTY }
      else if env.freeBytes < s.used_size + cfg.min_free_space_mb * 1048576 then
        { result := .ERROR }
      else step6Read cfg dryRun env fcInfo s

/-! ### Claim C1 — the integrity gate before erase -/

/-- Every run either exits before opening the writer (no erase, no
verification outcomes recorded) or reaches the read stage for the detected
FC and summary. -/
theorem runModel_stage (cfg : OrchConfig) (dryRun : Bool) (env : Env) :
    ((runModel cfg dryRun env).eraseCalled = false
      ∧ (runModel cfg dryRun env).sizeOk = none
      ∧ (runModel cfg dryRun env).shaOk = none
      ∧ (runModel cfg dryRun env).writerOpened = false)
    ∨ ∃ fcInfo s, env.detect = Except.ok fcInfo ∧ env.summary = Except.ok s
        ∧ runModel cfg dryRun env = step6Read cfg dryRun env fcInfo s := by
  unfold runModel
  split
  · exact Or.inl (by simp)
  split
  · exact Or.inl (by simp)
  split
  · exact Or.inl (by simp)
  split
  · exact Or.inl (by simp)
  split
  · exact Or.inl (by simp)
  split
  · exact Or.inl (by simp)
  exact Or.inr ⟨_, _, by assumption, by assumption, rfl⟩

/-- Outputs of the erase stage: erase was sent, both verification outcomes
were recorded as passed, the file is intact. -/
theorem step9Erase_spec (env : Env) (fcInfo : FCInfo) (s : FlashSummary)
    (fq : Nat × Nat) (lo : LoopOut) (sha : List Nat) :
    (step9Erase env fcInfo s fq lo sha).eraseCalled = true
    ∧ (step9Erase env fcInfo s fq lo sha).sizeOk = some true
    ∧ (step9Erase env fcInfo s fq lo sha).shaOk = some true
    ∧ (step9Erase env fcInfo s fq lo sha).written = lo.written
    ∧ (step9Erase env fcInfo s fq lo sha).file = some lo.written := by
  unfold step9Erase
  dsimp only
  split <;> simp

/-- The finish stage either proceeds to the erase stage or exits early
(dry-run or erase disabled) without sending erase. -/
theorem step8Finish_spec (cfg : OrchConfig) (dryRun : Bool) (env : Env) (fcInfo : FCInfo)
    (s : FlashSummary) (fq : Nat × Nat) (lo : LoopOut) (sha : List Nat) :
    step8Finish cfg dryRun env fcInfo s fq lo sha = step9Erase env fcInfo s fq lo sha
    ∨ ((step8Finish cfg dryRun env fcInfo s fq lo sha).eraseCalled = false
        ∧ (step8Finish cfg dryRun env fcInfo s fq lo sha).sizeOk = some true
        ∧ (step8Finish cfg dryRun env fcInfo s fq lo sha).shaOk = some true
        ∧ (step8Finish cfg dryRun env fcInfo s fq lo sha).written = lo.written
        ∧ (step8Finish cfg dryRun env fcInfo s fq lo sha).file = some lo.written) := by
  unfold step8Finish
  dsimp only
  split
  · exact Or.inr (by simp)
  split
  · exact Or.inr (by simp)
  · exact Or.inl rfl

/-- The verification stage either passes both checks and hands the on-disk
hash to the finish stage, or records the failed check and errors without
erase. -/
theorem step7Verify_spec (cfg : OrchConfig) (dryRun : Bool) (env : Env) (fcInfo : FCInfo)
    (s : FlashSummary) (fq : Nat × Nat) (lo : LoopOut) :
    (lo.written.length = s.used_size
      ∧ env.hash (env.corrupt lo.written) = env.hash lo.written
      ∧ step7Verify cfg dryRun env fcInfo s fq lo
          = step8Finish cfg dryRun env fcInfo s fq lo (env.hash (env.corrupt lo.written)))
    ∨ ((step7Verify cfg dryRun env fcInfo s fq lo).result = .ERROR
        ∧ (step7Verify cfg dryRun env fcInfo s fq lo).eraseCalled = false
        ∧ (step7Verify cfg dryRun env fcInfo s fq lo).file = some lo.written
        ∧ (step7Verify cfg dryRun env fcInfo s fq lo).written = lo.written
        ∧ ((step7Verify cfg dryRun env fcInfo s fq lo).sizeOk = some false
            ∨ (step7Verify cfg dryRun env fcInfo s fq lo).shaOk = some false)) := by
  unfold step7Verify
  dsimp only
  split
  · exact Or.inr (by simp)
  split
  · exact Or.inr (by simp)
  · rename_i h1 h2
    exact Or.inl ⟨not_ne_iff.mp h1, not_ne_iff.mp h2, rfl⟩

/-- The read stage either aborts (partial file deleted, ERROR, no erase,
no verification outcome) or proceeds to verification with the loop
output. -/
theorem step6Read_spec (cfg : OrchConfig) (dryRun : Bool) (env : Env) (fcInfo : FCInfo)
    (s : FlashSummary) :
    ((readLoop env.huff cfg.flash_chunk_size s.used_size 0 0 [] env.readOutcomes).aborted = false
      ∧ step6Read cfg dryRun env fcInfo s
          = step7Verify cfg dryRun env fcInfo s (0, min cfg.flash_chunk_size s.used_size)
              (readLoop env.huff cfg.flash_chunk_size s.used_size 0 0 [] env.readOutcomes))
    ∨ ((readLoop env.huff cfg.flash_chunk_size s.used_size 0 0 [] env.readOutcomes).aborted = true
        ∧ (step6Read cfg dryRun env fcInfo s).result = .ERROR
        ∧ (step6Read cfg dryRun env fcInfo s).eraseCalled = false
        ∧ (step6Read cfg dryRun env fcInfo s).file = none
        ∧ (step6Read cfg dryRun env fcInfo s).writerOpened = true
        ∧ (step6Read cfg dryRun env fcInfo s).sizeOk = none
        ∧ (step6Read cfg dryRun env fcInfo s).shaOk = none
        ∧ (step6Read cfg dryRun env fcInfo s).written
            = (readLoop env.huff cfg.flash_chunk_size s.used_size 0 0 [] env.readOutcomes).written) := by
  unfold step6Read
  dsimp only
  split
  · rename_i h
    exact Or.inr ⟨h, by simp, by simp, by simp, by simp, by simp, by simp, by simp⟩
  · rename_i h
    exact Or.inl ⟨by simpa using h, rfl⟩

/-- Gate facts about the read-and-verify stages: erase is only reached with
both checks passed, and a recorded size or SHA failure means ERROR without
erase. -/
theorem step6_gate (cfg : OrchConfig) (dryRun : Bool) (env : Env) (fcInfo : FCInfo)
    (s : FlashSummary) :
    ∀ out : RunOut, out = step6Read cfg dryRun env fcInfo s →
      ((out.eraseCalled = true →
        out.written.length = s.used_size
        ∧ env.hash (env.corrupt out.written) = env.hash out.written
        ∧ out.sizeOk = some true ∧ out.shaOk = some true)
      ∧ ((out.sizeOk = some false ∨ out.shaOk = some false) →
        out.result = .ERROR ∧ out.eraseCalled = false)) := by
  intro out hout
  subst hout
  rcases step6Read_spec cfg dryRun env fcInfo s with ⟨hnab, h67⟩ |
    ⟨hab, hres, hec, hfile, hwo, hsz, hsha, hwr⟩
  · rw [h67]
    rcases step7Verify_spec cfg dryRun env fcInfo s
        (0, min cfg.flash_chunk_size s.used_size)
        (readLoop env.huff cfg.flash_chunk_size s.used_size 0 0 [] env.readOutcomes) with
      ⟨hlen, hsh, h78⟩ | ⟨hres, hec, hfile, hwr, hor⟩
    · rw [h78]
      rcases step8Finish_spec cfg dryRun env fcInfo s
          (0, min cfg.flash_chunk_size s.used_size)
          (readLoop env.huff cfg.flash_chunk_size s.used_size 0 0 [] env.readOutcomes)
          (env.hash (env.corrupt
            (readLoop env.huff cfg.flash_chunk_size s.used_size 0 0 [] env.readOutcomes).written))
        with h89 | ⟨hec, hsz, hsha2, hwr, hfile2⟩
      · rw [h89]
        obtain ⟨hec9, hsz9, hsha9, hwr9, hfile9⟩ := step9Erase_spec env fcInfo s
          (0, min cfg.flash_chunk_size s.used_size)
          (readLoop env.huff cfg.flash_chunk_size s.used_size 0 0 [] env.readOutcomes)
          (env.hash (env.corrupt
            (readLoop env.huff cfg.flash_chunk_size s.used_size 0 0 [] env.readOutcomes).written))
        refine ⟨fun _ => ⟨?_, ?_, hsz9, hsha9⟩, fun hor => ?_⟩
        · rw [hwr9]; exact hlen
        · rw [hwr9]; exact hsh
        · rw [hsz9, hsha9] at hor
          rcases hor with h | h <;> exact absurd h (by simp)
      · refine ⟨fun hcall => absurd hcall (by simp [hec]), fun hor => ?_⟩
        rw [hsz, hsha2] at hor
        rcases hor with h | h <;> exact absurd h (by simp)
    · exact ⟨fun hcall => absurd hcall (by simp [hec]), fun _ => ⟨hres, hec⟩⟩
  · refine ⟨fun hcall => absurd hcall (by simp [hec]), fun hor => ?_⟩
    rw [hsz, hsha] at hor
    rcases hor with h | h <;> exact absurd h (by simp)

/-- Claim C1: in every run, the erase command is sent only if the byte count
written equals the summary used size and the re-read hash equals the
streaming hash (both checks recorded as passed); any size or SHA-256
verification failure ends the run with ERROR and the erase command is never
sent. -/
theorem claim_C1 (cfg : OrchConfig) (dryRun : Bool) (env : Env) :
    (∀ s, env.summary = Except.ok s →
      (runModel cfg dryRun env).eraseCalled = true →
        (runModel cfg dryRun env).written.length = s.used_size
        ∧ env.hash (env.corrupt (runModel cfg dryRun env).written)
            = env.hash (runModel cfg dryRun env).written
        ∧ (runModel cfg dryRun env).sizeOk = some true
        ∧ (runModel cfg dryRun env).shaOk = some true)
    ∧ (((runModel cfg dryRun env).sizeOk = some false
          ∨ (runModel cfg dryRun env).shaOk = some false) →
        (runModel cfg dryRun env).result = .ERROR
          ∧ (runModel cfg dryRun env).eraseCalled = false) := by
  rcases runModel_stage cfg dryRun env with ⟨h1, h2, h3, _⟩ | ⟨fcInfo, s0, hdet, hsum0, heq⟩
  · constructor
    · intro s hsum hcall
      rw [h1] at hcall
      exact absurd hcall (by simp)
    · intro hor
      rcases hor with h | h
      · rw [h2] at h; exact absurd h (by simp)
      · rw [h3] at h; exact absurd h (by simp)
  · constructor
    · intro s hsum hcall
      rw [hsum0] at hsum
      injection hsum with he
      subst he
      rw [heq] at hcall ⊢
      exact (step6_gate cfg dryRun env fcInfo s0 _ rfl).1 hcall
    · intro hor
      rw [heq] at hor ⊢
      exact (step6_gate cfg dryRun env fcInfo s0 _ rfl).2 hor

/-- Detection result shared by the concrete environments below: a BTFL
flight controller with flash blackbox. -/
def btflFc : FCInfo :=
  { api_major := 1, api_minor := 45, variant := [0x42, 0x54, 0x46, 0x4C],
    uid := "deadbeef12345678abcd0102", blackbox_device := 3 }

/-- Code-72 response payload serving 8 uncompressed bytes at address 0. -/
def chunkPayload0 : List Nat :=
  [0, 0, 0, 0, 8, 0, 0, 0x48, 0x37, 0, 1, 0x48, 0x37, 0, 1]

/-- Code-72 response payload serving 8 uncompressed bytes at address 8. -/
def chunkPayload8 : List Nat :=
  [8, 0, 0, 0, 8, 0, 0, 0x48, 0x37, 0, 1, 0x48, 0x37, 0, 1]

/-- The 16 flash bytes of the happy-path scenario. -/
def flashData16 : List Nat :=
  [0x48, 0x37, 0, 1, 0x48, 0x37, 0, 1, 0x48, 0x37, 0, 1, 0x48, 0x37, 0, 1]

/-- Environment where the full pipeline, including the erase poll,
succeeds. -/
def eraseEnv : Env :=
  { detect := .ok btflFc,
    summary := .ok ⟨3, 512, 8192, 16, true, true⟩,
    freeBytes := 1000000000,
    readOutcomes := [.frame chunkPayload0, .frame chunkPayload8],
    erasePolls := [.ok ⟨3, 512, 8192, 0, true, true⟩],
    corrupt := id, hash := id, huff := fun _ _ => .error () }

/-- Environment where the FC reports end-of-data immediately, so the size
check fails. -/
def shortReadEnv : Env :=
  { detect := .ok btflFc,
    summary := .ok ⟨3, 512, 8192, 16, true, true⟩,
    freeBytes := 1000000000,
    readOutcomes := [.frame [0, 0, 0, 0, 0, 0, 0]],
    erasePolls := [],
    corrupt := id, hash := id, huff := fun _ _ => .error () }

/-- Concrete instantiation of claim C1: in `eraseEnv` the erase command is
sent and both checks passed; in `shortReadEnv` the size check fails, the
run errors and erase is never sent. -/
theorem claim_C1_witness :
    ((runModel {} false eraseEnv).written.length = (16 : Nat)
      ∧ eraseEnv.hash (eraseEnv.corrupt (runModel {} false eraseEnv).written)
          = eraseEnv.hash (runModel {} false eraseEnv).written
      ∧ (runModel {} false eraseEnv).sizeOk = some true
      ∧ (runModel {} false eraseEnv).shaOk = some true)
    ∧ ((runModel {} false shortReadEnv).result = .ERROR
      ∧ (runModel {} false shortReadEnv).eraseCalled = false) :=
  ⟨(claim_C1 {} false eraseEnv).1 ⟨3, 512, 8192, 16, true, true⟩ rfl (by decide),
   (claim_C1 {} false shortReadEnv).2 (Or.inl (by decide))⟩

/-! ### Claim C2 — happy path, uncompressed -/

/-- When both integrity checks hold, the verify stage passes straight to
the finish stage with the on-disk hash. -/
theorem step7Verify_pass (cfg : OrchConfig) (dryRun : Bool) (env : Env) (fcInfo : FCInfo)
    (s : FlashSummary) (fq : Nat × Nat) (lo : LoopOut)
    (hlen : lo.written.length = s.used_size)
    (hsha : env.hash (env.corrupt lo.written) = env.hash lo.written) :
    step7Verify cfg dryRun env fcInfo s fq lo
      = step8Finish cfg dryRun env fcInfo s fq lo (env.hash (env.corrupt lo.written)) := by
  unfold step7Verify
  rw [if_neg (not_ne_iff.mpr hlen)]
  dsimp only
  rw [if_neg (not_ne_iff.mpr hsha)]

/-- Flash summary of the happy-path scenario: supported, ready, 16 bytes
used. -/
def s16 : FlashSummary := ⟨3, 512, 8192, 16, true, true⟩

/-- Loop output of the happy-path scenario: the 16 bytes, one pipelined
request for the second window, no abort. -/
def lo16 : LoopOut := ⟨flashData16, [(8, 8)], false⟩

/-- Orchestrator configuration of the happy-path scenario: defaults with
erase disabled (the scenario asserts nothing about erase polls). -/
def c2Cfg : OrchConfig := { erase_after_sync := false }

/-- Happy-path environment, parametric in the opaque SHA-256 function. -/
def c2Env (h : List Nat → List Nat) : Env :=
  { detect := .ok btflFc,
    summary := .ok s16,
    freeBytes := 1000000000,
    readOutcomes := [.frame chunkPayload0, .frame chunkPayload8],
    erasePolls := [],
    corrupt := id, hash := h, huff := fun _ _ => .error () }

/-- Claim C2: with used_size 16 and two 8-byte uncompressed chunks served
at addresses 0 and 8, the run returns SUCCESS, the on-disk file holds
exactly those 16 bytes, the two reads are issued as requests (0, 16) and
(8, 8), and the manifest records SHA-256 of exactly those 16 bytes — for
every hash function. -/
theorem claim_C2 (h : List Nat → List Nat) :
    (runModel c2Cfg false (c2Env h)).result = .SUCCESS
    ∧ (runModel c2Cfg false (c2Env h)).file = some flashData16
    ∧ (runModel c2Cfg false (c2Env h)).requests = [(0, 16), (8, 8)]
    ∧ (runModel c2Cfg false (c2Env h)).manifest
        = some { fc := btflFc, sha256 := h flashData16, bytes := 16,
                 erase_attempted := false, erase_completed := false }
    ∧ (runModel c2Cfg false (c2Env h)).eraseCalled = false := by
  have hloop : readLoop (fun _ _ => (Except.error () : Except Unit (List Nat))) 16384 16 0 0 []
      [ReadOutcome.frame chunkPayload0, ReadOutcome.frame chunkPayload8] = lo16 := by
    decide
  have hpre : runModel c2Cfg false (c2Env h) = step6Read c2Cfg false (c2Env h) btflFc s16 := by
    unfold runModel
    simp only [c2Env, c2Cfg, s16]
    norm_num
  have h6 : step6Read c2Cfg false (c2Env h) btflFc s16
      = step7Verify c2Cfg false (c2Env h) btflFc s16 (0, 16) lo16 := by
    unfold step6Read
    simp only [c2Env, c2Cfg, s16]
    rw [hloop]
    norm_num [lo16, Nat.min_def]
  have hsha0 : (c2Env h).hash ((c2Env h).corrupt lo16.written) = h flashData16 := rfl
  have h8 : step8Finish c2Cfg false (c2Env h) btflFc s16 (0, 16) lo16 (h flashData16)
      = { result := .SUCCESS, requests := [(0, 16), (8, 8)], written := flashData16,
          writerOpened := true, file := some flashData16, sizeOk := some true,
          shaOk := some true,
          manifest := some { fc := btflFc, sha256 := h flashData16, bytes := 16,
                             erase_attempted := false, erase_completed := false },
          eraseCalled := false } := by
    unfold step8Finish
    simp [c2Cfg, s16, lo16]
  rw [hpre, h6, step7Verify_pass c2Cfg false (c2Env h) btflFc s16 (0, 16) lo16
    (by decide) rfl, hsha0, h8]
  exact ⟨rfl, rfl, rfl, rfl, rfl⟩

/-! ### Claim C3 — bounded-retry discipline in the read loop -/

/-- Within the opened-writer stages, the partial file is missing exactly
when the read loop aborted, and an aborted loop forces ERROR. -/
theorem step6_file (cfg : OrchConfig) (dryRun : Bool) (env : Env) (fcInfo : FCInfo)
    (s : FlashSummary) :
    ((step6Read cfg dryRun env fcInfo s).file = none
      ↔ (readLoop env.huff cfg.flash_chunk_size s.used_size 0 0 [] env.readOutcomes).aborted
          = true)
    ∧ ((readLoop env.huff cfg.flash_chunk_size s.used_size 0 0 [] env.readOutcomes).aborted = true
        → (step6Read cfg dryRun env fcInfo s).result = .ERROR) := by
  rcases step6Read_spec cfg dryRun env fcInfo s with ⟨hnab, h67⟩ |
    ⟨hab, hres, _, hfile, _, _, _, _⟩
  · constructor
    · rw [h67]
      constructor
      · intro hf
        rcases step7Verify_spec cfg dryRun env fcInfo s
            (0, min cfg.flash_chunk_size s.used_size)
            (readLoop env.huff cfg.flash_chunk_size s.used_size 0 0 [] env.readOutcomes) with
          ⟨_, _, h78⟩ | ⟨_, _, hfile7, _, _⟩
        · rw [h78] at hf
          rcases step8Finish_spec cfg dryRun env fcInfo s
              (0, min cfg.flash_chunk_size s.used_size)
              (readLoop env.huff cfg.flash_chunk_size s.used_size 0 0 [] env.readOutcomes)
              (env.hash (env.corrupt
                (readLoop env.huff cfg.flash_chunk_size s.used_size 0 0 []
                  env.readOutcomes).written)) with h89 | ⟨_, _, _, _, hfile8⟩
          · rw [h89] at hf
            rw [(step9Erase_spec env fcInfo s _ _ _).2.2.2.2] at hf
            exact absurd hf (by simp)
          · rw [hfile8] at hf
            exact absurd hf (by simp)
        · rw [hfile7] at hf
          exact absurd hf (by simp)
      · intro hx
        rw [hnab] at hx
        exact absurd hx (by simp)
    · intro hx
      rw [hnab] at hx
      exact absurd hx (by simp)
  · exact ⟨by rw [hfile]; simp [hab], fun _ => hres⟩

/-- Claim C3: each MSP error or address mismatch in the flash-read loop
increments the consecutive-error counter and re-issues the same read
request; an in-order non-empty chunk resets the counter to 0; reaching 5
aborts; and at run level the partial file is deleted exactly when the loop
aborted, which forces ERROR. -/
theorem claim_C3 :
    (∀ (huff : List Nat → Nat → Except Unit (List Nat)) (chunk used address consec : Nat)
        (written : List Nat) (rest : List ReadOutcome),
      address < used → consec + 1 < 5 →
        readLoop huff chunk used address consec written (.mspError :: rest)
          = { readLoop huff chunk used address (consec + 1) written rest with
              requests := (address, min chunk (used - address))
                :: (readLoop huff chunk used address (consec + 1) written rest).requests })
    ∧ (∀ (huff : List Nat → Nat → Except Unit (List Nat)) (chunk used address consec : Nat)
        (written : List Nat) (rest : List ReadOutcome),
      address < used → consec + 1 ≥ 5 →
        readLoop huff chunk used address consec written (.mspError :: rest)
          = { written := written, requests := [], aborted := true })
    ∧ (∀ (huff : List Nat → Nat → Except Unit (List Nat)) (chunk used address consec : Nat)
        (written : List Nat) (o : ReadOutcome) (rest : List ReadOutcome)
        (ca : Nat) (data : List Nat),
      address < used → recvFlashRead huff o = .ok (ca, data) → ca ≠ address →
      consec + 1 < 5 →
        readLoop huff chunk used address consec written (o :: rest)
          = { readLoop huff chunk used address (consec + 1) written rest with
              requests := (address, min chunk (used - address))
                :: (readLoop huff chunk used address (consec + 1) written rest).requests })
    ∧ (∀ (huff : List Nat → Nat → Except Unit (List Nat)) (chunk used address consec : Nat)
        (written : List Nat) (o : ReadOutcome) (rest : List ReadOutcome)
        (ca : Nat) (data : List Nat),
      address < used → recvFlashRead huff o = .ok (ca, data) → ca ≠ address →
      consec + 1 ≥ 5 →
        readLoop huff chunk used address consec written (o :: rest)
          = { written := written, requests := [], aborted := true })
    ∧ (∀ (huff : List Nat → Nat → Except Unit (List Nat)) (chunk used address consec : Nat)
        (written : List Nat) (o : ReadOutcome) (rest : List ReadOutcome) (data : List Nat),
      address < used → recvFlashRead huff o = .ok (address, data) → data ≠ [] →
        readLoop huff chunk used address consec written (o :: rest)
          = if address + data.length < used then
              { readLoop huff chunk used (address + data.length) 0 (written ++ data) rest with
                requests := (address + data.length,
                    min chunk (used - (address + data.length)))
                  :: (readLoop huff chunk used (address + data.length) 0
                      (written ++ data) rest).requests }
            else readLoop huff chunk used (address + data.length) 0 (written ++ data) rest)
    ∧ (∀ (cfg : OrchConfig) (dryRun : Bool) (env : Env) (s : FlashSummary),
      env.summary = Except.ok s → (runModel cfg dryRun env).writerOpened = true →
        (((runModel cfg dryRun env).file = none
          ↔ (readLoop env.huff cfg.flash_chunk_size s.used_size 0 0 []
              env.readOutcomes).aborted = true)
        ∧ ((readLoop env.huff cfg.flash_chunk_size s.used_size 0 0 []
              env.readOutcomes).aborted = true
            → (runModel cfg dryRun env).result = .ERROR))) := by
  refine ⟨?_, ?_, ?_, ?_, ?_, ?_⟩
  · intro huff chunk used address consec written rest h1 h2
    have h5 : ¬ (consec + 1 ≥ 5) := by omega
    simp [readLoop, recvFlashRead, h1, h5]
  · intro huff chunk used address consec written rest h1 h2
    simp [readLoop, recvFlashRead, h1, h2]
  · intro huff chunk used address consec written o rest ca data h1 hrecv hca h2
    have h5 : ¬ (consec + 1 ≥ 5) := by omega
    simp [readLoop, h1, hrecv, hca, h5]
  · intro huff chunk used address consec written o rest ca data h1 hrecv hca h2
    simp [readLoop, h1, hrecv, hca, h2]
  · intro huff chunk used address consec written o rest data h1 hrecv hdata
    simp [readLoop, h1, hrecv, hdata]
  · intro cfg dryRun env s hsum hwo
    rcases runModel_stage cfg dryRun env with ⟨_, _, _, hwo0⟩ |
      ⟨fcInfo, s0, hdet, hsum0, heq⟩
    · rw [hwo0] at hwo
      exact absurd hwo (by simp)
    · rw [hsum0] at hsum
      injection hsum with he
      subst he
      rw [heq]
      exact step6_file cfg dryRun env fcInfo s0

/-- Concrete instantiation of claim C3: retry, fatal retry, mismatch,
fatal mismatch, reset-on-success, and the run-level abort consequence. -/
theorem claim_C3_witness :
    (readLoop (fun _ _ => (Except.error () : Except Unit (List Nat))) 8 64 0 0 []
        [.mspError] = ⟨[], [(0, 8), (0, 8), (0, 8), (0, 8)], true⟩)
    ∧ (readLoop (fun _ _ => (Except.error () : Except Unit (List Nat))) 8 64 0 4 []
        [.mspError] = ⟨[], [], true⟩)
    ∧ (readLoop (fun _ _ => (Except.error () : Except Unit (List Nat))) 8 64 8 0 []
        [.frame chunkPayload0] = ⟨[], [(8, 8), (8, 8), (8, 8), (8, 8)], true⟩)
    ∧ (readLoop (fun _ _ => (Except.error () : Except Unit (List Nat))) 8 64 8 4 []
        [.frame chunkPayload0] = ⟨[], [], true⟩)
    ∧ (readLoop (fun _ _ => (Except.error () : Except Unit (List Nat))) 8 64 0 3 []
        [.frame chunkPayload0]
        = ⟨[0x48, 0x37, 0, 1, 0x48, 0x37, 0, 1],
            [(8, 8), (8, 8), (8, 8), (8, 8), (8, 8)], true⟩)
    ∧ (((runModel {} false eraseEnv).file = none
        ↔ (readLoop eraseEnv.huff 16384 16 0 0 [] eraseEnv.readOutcomes).aborted = true)
      ∧ ((readLoop eraseEnv.huff 16384 16 0 0 [] eraseEnv.readOutcomes).aborted = true
          → (runModel {} false eraseEnv).result = .ERROR)) :=
  ⟨claim_C3.1 (fun _ _ => Except.error ()) 8 64 0 0 [] [] (by decide) (by decide),
   claim_C3.2.1 (fun _ _ => Except.error ()) 8 64 0 4 [] [] (by decide) (by decide),
   claim_C3.2.2.1 (fun _ _ => Except.error ()) 8 64 8 0 [] (.frame chunkPayload0) [] 0
     [0x48, 0x37, 0, 1, 0x48, 0x37, 0, 1] (by decide) rfl (by decide) (by decide),
   claim_C3.2.2.2.1 (fun _ _ => Except.error ()) 8 64 8 4 [] (.frame chunkPayload0) [] 0
     [0x48, 0x37, 0, 1, 0x48, 0x37, 0, 1] (by decide) rfl (by decide) (by decide),
   claim_C3.2.2.2.2.1 (fun _ _ => Except.error ()) 8 64 0 3 [] (.frame chunkPayload0) []
     [0x48, 0x37, 0, 1, 0x48, 0x37, 0, 1] (by decide) rfl (by decide),
   claim_C3.2.2.2.2.2 {} false eraseEnv ⟨3, 512, 8192, 16, true, true⟩ rfl (by decide)⟩

/-! ### Claim C10 — early end-of-data, and where the partial file survives -/

/-- A recorded verification failure leaves the file on disk (equal to the
streamed bytes), errors, and never erases. -/
theorem step6_fail (cfg : OrchConfig) (dryRun : Bool) (env : Env) (fcInfo : FCInfo)
    (s : FlashSummary) :
    ∀ out : RunOut, out = step6Read cfg dryRun env fcInfo s →
      (out.sizeOk = some false ∨ out.shaOk = some false) →
        out.result = .ERROR ∧ out.file = some out.written ∧ out.eraseCalled = false := by
  intro out hout hor
  subst hout
  rcases step6Read_spec cfg dryRun env fcInfo s with ⟨hnab, h67⟩ |
    ⟨hab, _, _, _, _, hsz, hsha, _⟩
  · rw [h67] at hor ⊢
    rcases step7Verify_spec cfg dryRun env fcInfo s
        (0, min cfg.flash_chunk_size s.used_size)
        (readLoop env.huff cfg.flash_chunk_size s.used_size 0 0 [] env.readOutcomes) with
      ⟨_, _, h78⟩ | ⟨hres, hec, hfile, hwr, _⟩
    · rw [h78] at hor ⊢
      rcases step8Finish_spec cfg dryRun env fcInfo s
          (0, min cfg.flash_chunk_size s.used_size)
          (readLoop env.huff cfg.flash_chunk_size s.used_size 0 0 [] env.readOutcomes)
          (env.hash (env.corrupt
            (readLoop env.huff cfg.flash_chunk_size s.used_size 0 0 []
              env.readOutcomes).written)) with h89 | ⟨_, hsz8, hsha8, _, _⟩
      · rw [h89] at hor ⊢
        obtain ⟨_, hsz9, hsha9, _, _⟩ := step9Erase_spec env fcInfo s
          (0, min cfg.flash_chunk_size s.used_size)
          (readLoop env.huff cfg.flash_chunk_size s.used_size 0 0 [] env.readOutcomes)
          (env.hash (env.corrupt
            (readLoop env.huff cfg.flash_chunk_size s.used_size 0 0 []
              env.readOutcomes).written))
        rw [hsz9, hsha9] at hor
        rcases hor with h | h <;> exact absurd h (by simp)
      · rw [hsz8, hsha8] at hor
        rcases hor with h | h <;> exact absurd h (by simp)
    · exact ⟨hres, by rw [hfile, hwr], hec⟩
  · rw [hsz, hsha] at hor
    rcases hor with h | h <;> exact absurd h (by simp)

/-- Claim C10: an empty chunk before used_size bytes breaks out of the read
loop without aborting (the writer is closed, not aborted); the run then
errors at the size check with the partial file left on disk and no erase;
and a missing file can only come from a read-loop abort, never from a
verify-stage failure. -/
theorem claim_C10 :
    (∀ (huff : List Nat → Nat → Except Unit (List Nat)) (chunk used address consec : Nat)
        (written : List Nat) (o : ReadOutcome) (rest : List ReadOutcome),
      address < used → recvFlashRead huff o = .ok (address, ([] : List Nat)) →
        readLoop huff chunk used address consec written (o :: rest)
          = { written := written, requests := [], aborted := false })
    ∧ (∀ (cfg : OrchConfig) (dryRun : Bool) (env : Env),
        ((runModel cfg dryRun env).sizeOk = some false
          ∨ (runModel cfg dryRun env).shaOk = some false) →
          (runModel cfg dryRun env).result = .ERROR
          ∧ (runModel cfg dryRun env).file = some (runModel cfg dryRun env).written
          ∧ (runModel cfg dryRun env).eraseCalled = false)
    ∧ (∀ (cfg : OrchConfig) (dryRun : Bool) (env : Env) (s : FlashSummary),
        env.summary = Except.ok s →
        (runModel cfg dryRun env).writerOpened = true →
        (runModel cfg dryRun env).file = none →
          (readLoop env.huff cfg.flash_chunk_size s.used_size 0 0 []
            env.readOutcomes).aborted = true) := by
  refine ⟨?_, ?_, ?_⟩
  · intro huff chunk used address consec written o rest h1 hrecv
    simp [readLoop, h1, hrecv]
  · intro cfg dryRun env hor
    rcases runModel_stage cfg dryRun env with ⟨_, h2, h3, _⟩ |
      ⟨fcInfo, s0, hdet, hsum0, heq⟩
    · rw [h2, h3] at hor
      rcases hor with h | h <;> exact absurd h (by simp)
    · rw [heq] at hor ⊢
      exact step6_fail cfg dryRun env fcInfo s0 _ rfl hor
  · intro cfg dryRun env s hsum hwo hfile
    rcases runModel_stage cfg dryRun env with ⟨_, _, _, hwo0⟩ |
      ⟨fcInfo, s0, hdet, hsum0, heq⟩
    · rw [hwo0] at hwo
      exact absurd hwo (by simp)
    · rw [hsum0] at hsum
      injection hsum with he
      subst he
      rw [heq] at hfile
      exact (step6_file cfg dryRun env fcInfo s0).1.mp hfile

/-- Environment whose receive calls all time out, so the loop aborts and
the partial file is deleted. -/
def abortEnv : Env := { shortReadEnv with readOutcomes := [] }

/-- Concrete instantiation of claim C10: an immediate empty chunk under
used_size 16 gives a clean break, the size check then fails with the file
still present, and in the all-timeouts environment the missing file comes
from the loop abort. -/
theorem claim_C10_witness :
    (readLoop (fun _ _ => (Except.error () : Except Unit (List Nat))) 16384 16 0 0 []
        [.frame [0, 0, 0, 0, 0, 0, 0]] = ⟨[], [], false⟩)
    ∧ ((runModel {} false shortReadEnv).result = .ERROR
      ∧ (runModel {} false shortReadEnv).file = some (runModel {} false shortReadEnv).written
      ∧ (runModel {} false shortReadEnv).eraseCalled = false)
    ∧ (readLoop abortEnv.huff ({} : OrchConfig).flash_chunk_size 16 0 0 []
        abortEnv.readOutcomes).aborted = true :=
  ⟨claim_C10.1 (fun _ _ => Except.error ()) 16384 16 0 0 [] (.frame [0, 0, 0, 0, 0, 0, 0]) []
     (by decide) rfl,
   claim_C10.2.1 {} false shortReadEnv (Or.inl (by decide)),
   claim_C10.2.2 {} false abortEnv ⟨3, 512, 8192, 16, true, true⟩ rfl (by decide) (by decide)⟩

/-! ### Claim C9 — the used_size ≤ total_size invariant is not checked -/

/-- Claim C9 is false as stated: a 13-byte summary payload with flags 3,
total_size 0 and used_size 1 is accepted by `get_dataflash_summary`
(decoded without error), although used_size exceeds total_size. -/
theorem claim_C9_counterexample :
    get_dataflash_summary_decode [3, 0, 0, 0, 0, 0, 0, 0, 0, 1, 0, 0, 0]
      = Except.ok { flags := 3, sectors := 0, total_size := 0, used_size := 1,
                    supported := true, ready := true } := rfl

/-- Claim C9 (amended): the decode rejects exactly the payloads shorter
than 13 bytes; every well-formed `<BIII` payload is accepted with the
little-endian field values, with no used_size ≤ total_size validation —
in particular for every pair total < used. -/
theorem claim_C9_amended :
    (∀ p : List Nat, p.length < 13 ↔ get_dataflash_summary_decode p = Except.error ())
    ∧ (∀ flags sectors total used : Nat,
        sectors < 4294967296 → total < 4294967296 → used < 4294967296 →
        get_dataflash_summary_decode (summaryPayload flags sectors total used)
          = Except.ok { flags := flags, sectors := sectors, total_size := total,
                        used_size := used,
                        supported := (flags &&& 0x01) != 0,
                        ready := (flags &&& 0x02) != 0 }) := by
  constructor
  · intro p
    constructor
    · intro h
      simp [get_dataflash_summary_decode, h]
    · intro h
      by_contra hlen
      simp [get_dataflash_summary_decode, hlen] at h
  · intro flags sectors total used hs ht hu
    simp [get_dataflash_summary_decode, summaryPayload]
    refine ⟨?_, ?_, ?_⟩ <;> omega

/-- Concrete instantiation of the amended claim C9: the empty payload is
rejected for length, and the (total 0, used 1) payload is accepted. -/
theorem claim_C9_witness :
    get_dataflash_summary_decode ([] : List Nat) = Except.error ()
    ∧ get_dataflash_summary_decode (summaryPayload 3 0 0 1)
        = Except.ok { flags := 3, sectors := 0, total_size := 0, used_size := 1,
                      supported := (3 &&& 0x01) != 0, ready := (3 &&& 0x02) != 0 } :=
  ⟨(claim_C9_amended.1 []).mp (by decide),
   claim_C9_amended.2 3 0 0 1 (by decide) (by decide) (by decide)⟩

/-! ### Claim C7 — session directory collisions within one second

Embeds `make_session_dir` (src/bbsyncer/storage/manifest.py).  The
filesystem is the set of existing directories; `mkdir(parents=True,
exist_ok=True)` adds the directory if absent and silently succeeds if
present.  Only the FC uid and the wall-clock timestamp string enter the
path. -/

/-- Session directory creation: `<storage_root>/fc_BTFL_uid-<uid8>/<ts>`,
`mkdir` with `exist_ok=True`, no collision handling. -/
def make_session_dir (dirs : List (List String)) (uid timestamp : String) :
    (List String) × List (List String) :=
  let uid_short := if uid ≠ "unknown" then uid.take 8 else "unknown"
  let session_dir : List String := ["fc_BTFL_uid-" ++ uid_short, timestamp]
  (session_dir, if dirs.contains session_dir then dirs else session_dir :: dirs)

/-- Claim C7 is false on the code: called twice with the same FC uid within
the same wall-clock second (same timestamp string), `make_session_dir`
returns the identical directory both times — no `_N` suffix is ever
appended — as the concrete evaluation shows. -/
theorem claim_C7 :
    (∀ (dirs : List (List String)) (uid timestamp : String),
      (make_session_dir (make_session_dir dirs uid timestamp).2 uid timestamp).1
        = (make_session_dir dirs uid timestamp).1)
    ∧ (make_session_dir
        (make_session_dir [] "deadbeef12345678abcd0102" "2026-02-26_143012").2
        "deadbeef12345678abcd0102" "2026-02-26_143012").1
        = ["fc_BTFL_uid-deadbeef", "2026-02-26_143012"] := by
  constructor
  · intro dirs uid timestamp
    rfl
  · rfl

/-! ### Claim C8 — manifest mutations are in-place, not write-new-and-replace

`write_manifest` and `update_manifest_erase` (src/bbsyncer/storage/
manifest.py) are embedded as traces of filesystem events on the session
directory; JSON serialization is abstracted by carrying the manifest value
itself as the written content.  `os.open(path, O_WRONLY | O_CREAT |
O_TRUNC)` is `openTrunc`, followed by `os.write`, `os.fsync` and
`os.close`, all on manifest.json itself. -/

/-- Filesystem events a manifest mutation can issue. -/
inductive FsEvent where
  | openTrunc (file : String)
  | write (file : String) (content : Manifest)
  | fsync (file : String)
  | close (file : String)
  | rename (src dst : String)
deriving DecidableEq

/-- Event trace of `write_manifest`. -/
def write_manifest_trace (m : Manifest) : List FsEvent :=
  [.openTrunc "manifest.json", .write "manifest.json" m, .fsync "manifest.json",
   .close "manifest.json"]

/-- Event trace of `update_manifest_erase`: reads the manifest (the `old`
argument), sets `erase_attempted := true` and `erase_completed` to the
outcome, and rewrites the same file in place. -/
def update_manifest_erase_trace (old : Manifest) (erase_completed : Bool) : List FsEvent :=
  let m2 := { old with erase_attempted := true, erase_completed := erase_completed }
  [.openTrunc "manifest.json", .write "manifest.json" m2, .fsync "manifest.json",
   .close "manifest.json"]

/-- State of manifest.json under a trace: absent, truncated-empty (right
after an O_TRUNC open), or holding full content.  The embedded traces
contain no rename, which is left as a no-op on this single-file state. -/
def stepManifestFile (st : Option (Option Manifest)) (e : FsEvent) :
    Option (Option Manifest) :=
  match e with
  | .openTrunc f => if f = "manifest.json" then some none else st
  | .write f m => if f = "manifest.json" then some (some m) else st
  | .fsync _ => st
  | .close _ => st
  | .rename _ _ => st

/-- All intermediate on-disk states a crash could expose during a trace. -/
def crashStates (init : Option (Option Manifest)) (evs : List FsEvent) :
    List (Option (Option Manifest)) :=
  evs.scanl stepManifestFile init

/-- The write-new-then-replace shape the claim asserts: manifest.json is
never opened or written directly, and the new content is installed by a
rename. -/
def atomicReplace (evs : List FsEvent) : Bool :=
  (evs.all fun e =>
    match e with
    | .openTrunc f => f != "manifest.json"
    | .write f _ => f != "manifest.json"
    | _ => true)
  && (evs.any fun e =>
    match e with
    | .rename _ dst => dst == "manifest.json"
    | _ => false)

/-- A concrete manifest value for evaluating the traces. -/
def exManifest : Manifest :=
  { fc := btflFc, sha256 := [1, 2], bytes := 16,
    erase_attempted := false, erase_completed := false }

/-- Claim C8 is false on the code: neither mutation follows the
write-new → fsync → replace shape, and during `update_manifest_erase` the
on-disk manifest.json passes through the truncated-empty state, which a
crash would expose. -/
theorem claim_C8_counterexample :
    atomicReplace (write_manifest_trace exManifest) = false
    ∧ atomicReplace (update_manifest_erase_trace exManifest true) = false
    ∧ (crashStates (some (some exManifest))
        (update_manifest_erase_trace exManifest true)).contains (some none) = true := by
  decide

/-- Claim C8 (amended): both mutations write in place — open manifest.json
with O_TRUNC, write the new content, fsync, close — with no separate file
and no rename, and every `write_manifest` run passes through a state where
manifest.json exists truncated. -/
theorem claim_C8_amended (m old : Manifest) (b : Bool) :
    write_manifest_trace m
      = [.openTrunc "manifest.json", .write "manifest.json" m, .fsync "manifest.json",
         .close "manifest.json"]
    ∧ update_manifest_erase_trace old b
      = [.openTrunc "manifest.json",
         .write "manifest.json" { old with erase_attempted := true, erase_completed := b },
         .fsync "manifest.json", .close "manifest.json"]
    ∧ ∀ init : Option (Option Manifest),
        (crashStates init (write_manifest_trace m)).contains (some none) = true := by
  refine ⟨rfl, rfl, ?_⟩
  intro init
  simp [crashStates, write_manifest_trace, stepManifestFile, List.scanl]

/-! ### Claim C6 — session path resolution accepts empty components

Embeds `_resolve_session_path` (src/bbsyncer/web/server.py) over the
characters of the session id.  `session_id.split('/')` is `splitSlash`
(Python split keeps empty fields); the `'..' in part` test is the
substring check `hasDotDot`; joining under the storage root and
`path.resolve().relative_to(storage.resolve())` is `resolveComponents`,
which drops empty and dot components as pathlib does and fails (HTTP 400)
if the path would climb above the storage root. -/

/-- Python str.split on a slash: keeps empty fields. -/
def splitSlash : List Char → List (List Char)
  | [] => [[]]
  | c :: rest =>
    match splitSlash rest with
    | [] => [[]]
    | s :: ss => if c = '/' then [] :: s :: ss else (c :: s) :: ss

/-- Substring test for ".." (the Python `'..' in part`). -/
def hasDotDot : List Char → Bool
  | [] => false
  | [_] => false
  | a :: b :: rest => (a == '.' && b == '.') || hasDotDot (b :: rest)

/-- Join the component list under the storage root and canonicalize:
empty and "." components vanish, ".." pops, popping above the root is the
ValueError of relative_to.  Returns the path relative to storage_root. -/
def resolveComponents : List (List Char) → List (List Char) → Option (List (List Char))
  | acc, [] => some acc.reverse
  | acc, c :: rest =>
    if c = [] ∨ c = ['.'] then resolveComponents acc rest
    else if c = ['.', '.'] then
      match acc with
      | [] => none
      | _ :: acc2 => resolveComponents acc2 rest
    else resolveComponents (c :: acc) rest

/-- `_resolve_session_path`: split into exactly two parts, reject ".."
substrings, then canonicalize under the storage root; violations are
HTTP 400. -/
def resolve_session_path (sessionId : List Char) : Except Nat (List (List Char)) :=
  match splitSlash sessionId with
  | [fcDir, sessionDir] =>
    if hasDotDot fcDir || hasDotDot sessionDir then .error 400
    else
      match resolveComponents [] [fcDir, sessionDir] with
      | none => .error 400
      | some rel => .ok rel
  | _ => .error 400

/-- Claim C6 is false on the code: the session id "/" (two empty
components, from a request path such as DELETE /sessions//) is not
rejected with 400 — it resolves to the storage root itself, the path the
delete handler would then remove wholesale.  Traversal and wrong-arity ids
are rejected as claimed. -/
theorem claim_C6 :
    resolve_session_path ['/'] = Except.ok []
    ∧ resolve_session_path "fc_BTFL_uid-abc/2026-01-01_120000".data
        = Except.ok ["fc_BTFL_uid-abc".data, "2026-01-01_120000".data]
    ∧ resolve_session_path "../etc/passwd".data = Except.error 400
    ∧ resolve_session_path "only_one_part".data = Except.error 400 := by
  refine ⟨rfl, rfl, rfl, rfl⟩

end BBSyncer
